import Mathlib

/-!
Shallow embedding of the analytical pipeline of `src/dash.py`
(emission-monitoring dashboard).

Data rows come from `detections_log.csv`; each row carries a timestamp
(`DateTime`, parsed with `errors="coerce"`, so parse failures become the
sentinel NaT), a filename, an optional box count, optional wind speed,
optional numeric wind bearing, and an optional compass label.  We model a
parsed row as `Record`, with `Option` for NaN/NaT-able fields; timestamps
are integer seconds, rationals model the exact values carried by the
floating-point columns, and the trigonometric geometry of the wind arrows
is modelled over the real numbers.
-/

namespace Dash

/-- A parsed row of the detection log, after `pd.to_datetime(..., errors="coerce")`:
`dateTime = none` models NaT (a row whose timestamp failed to parse),
`none` in the other fields models NaN / empty cells. -/
structure Record where
  dateTime : Option ℤ
  filename : String
  numBoxes : Option ℚ
  windSpeedKmh : Option ℚ
  windDirDeg : Option ℚ
  windDirCompass : Option String
deriving DecidableEq

/-- `DEFAULT_LAT` from dash.py line 12. -/
def defaultLat : ℚ := 30.767

/-- `DEFAULT_LON` from dash.py line 12. -/
def defaultLon : ℚ := 76.575

/-- A record carrying the `Latitude` / `Longitude` columns that dash.py
lines 34-35 attach to the frame. -/
structure LocatedRecord where
  row : Record
  lat : ℚ
  lon : ℚ
deriving DecidableEq

/-- The predicate of the time-window filter of dash.py line 33:
`df[df["DateTime"] >= datetime.now() - timedelta(hours=24)]`.
A NaT timestamp compares false against the bound, so such rows are
dropped.  Note the source enforces only the lower bound. -/
def inWindow (now win : ℤ) (r : Record) : Bool :=
  match r.dateTime with
  | some t => decide (now - win ≤ t)
  | none => false

/-- dash.py line 33: keep the rows whose timestamp passes `inWindow`. -/
def windowFilter (now win : ℤ) (rs : List Record) : List Record :=
  rs.filter (inWindow now win)

/-- The 24-hour default window, in seconds (`timedelta(hours=24)`). -/
def defaultWindow : ℤ := 86400

/-- dash.py lines 34-35: overwrite every row's coordinates with the fixed
site constants `DEFAULT_LAT`, `DEFAULT_LON`. -/
def withDefaultCoords (rs : List Record) : List LocatedRecord :=
  rs.map (fun r => ⟨r, defaultLat, defaultLon⟩)

/-- Hour-of-day of a timestamp in seconds (`df["DateTime"].dt.hour`). -/
def hourOf (t : ℤ) : ℤ :=
  (t / 3600) % 24

/-- The hour-of-day values of the rows that have a (parsed) timestamp. -/
def hoursOf (rs : List Record) : List ℤ :=
  (rs.filterMap (fun r => r.dateTime)).map hourOf

/-- dash.py line 64:
`df.groupby(df["DateTime"].dt.hour).size().reset_index(name="Detections")`.
Pandas `groupby` emits one row per distinct key with the group's size and,
by default (`sort=True`), lists the keys in ascending order. -/
def df_count (rs : List Record) : List (ℤ × ℕ) :=
  (((hoursOf rs).dedup).insertionSort (· ≤ ·)).map
    (fun h => (h, (hoursOf rs).count h))

/-- Pandas column mean as used by `.agg(... ("WindDir_deg", "mean"))`:
NaN entries are skipped, and the mean of an all-NaN column is NaN. -/
def pandasMean (l : List ℚ) : Option ℚ :=
  if l.isEmpty then none else some (l.sum / l.length)

/-- One row of `df_map`: a hotspot aggregate (dash.py lines 81-84). -/
structure Hotspot where
  lat : ℚ
  lon : ℚ
  emissionCount : ℕ
  windDirDeg : Option ℚ
deriving DecidableEq

/-- Lexicographic order on location keys, for pandas group-key sorting. -/
def lexLe (a b : ℚ × ℚ) : Prop :=
  a.1 < b.1 ∨ (a.1 = b.1 ∧ a.2 ≤ b.2)

instance : DecidableRel lexLe := fun a b => by
  unfold lexLe; infer_instance

/-- The location key of a located record. -/
def locKey (r : LocatedRecord) : ℚ × ℚ :=
  (r.lat, r.lon)

/-- dash.py lines 81-84:
`df.groupby(["Latitude", "Longitude"]).agg(Emission_Count=("Filename", "count"),
WindDir_deg=("WindDir_deg", "mean")).reset_index()`.
One hotspot per distinct coordinate pair; `Emission_Count` is the group
size (the `Filename` column is never null here) and `WindDir_deg` is the
pandas (arithmetic, NaN-skipping) mean of the group's bearings. -/
def df_map (rs : List LocatedRecord) : List Hotspot :=
  (((rs.map locKey).dedup).insertionSort lexLe).map (fun k =>
    let grp := rs.filter (fun r => decide (locKey r = k))
    { lat := k.1
      lon := k.2
      emissionCount := grp.length
      windDirDeg := pandasMean (grp.filterMap (fun r => r.row.windDirDeg)) })

/-- `scale = 0.001`, the arrow length of dash.py line 105. -/
def arrowScale : ℝ := 0.001

/-- Degrees to radians, `np.deg2rad` (dash.py line 110). -/
noncomputable def degToRad (d : ℝ) : ℝ :=
  d * Real.pi / 180

/-- One wind arrow emitted by the loop of dash.py lines 107-137: origin,
endpoint of the line trace, and the arrowhead rotation angle.  The
endpoint components and the angle are `none` when the hotspot's mean
bearing is NaN (NaN propagates through `deg2rad`, `cos`, `sin`). -/
structure WindArrow where
  lat0 : ℚ
  lon0 : ℚ
  endLat : Option ℝ
  endLon : Option ℝ
  angle : Option ℚ

/-- The arrow the loop body builds for one `df_map` row (dash.py lines
108-137): `lat1 = lat0 + scale*cos(rad)`, `lon1 = lon0 + scale*sin(rad)`,
arrowhead `angle=deg`. -/
noncomputable def arrowOf (h : Hotspot) : WindArrow :=
  { lat0 := h.lat
    lon0 := h.lon
    endLat := h.windDirDeg.map (fun d => (h.lat : ℝ) + arrowScale * Real.cos (degToRad d))
    endLon := h.windDirDeg.map (fun d => (h.lon : ℝ) + arrowScale * Real.sin (degToRad d))
    angle := h.windDirDeg }

/-- The arrow loop of dash.py lines 107-137: it iterates over every row of
`df_map` unconditionally, producing one arrow per hotspot. -/
noncomputable def windArrows (hs : List Hotspot) : List WindArrow :=
  hs.map arrowOf

/-- dash.py line 158: `df.dropna(subset=["Num_Boxes", "WindSpeed_kmh"])`. -/
def df_corr (rs : List Record) : List Record :=
  rs.filter (fun r => r.numBoxes.isSome && r.windSpeedKmh.isSome)

/-- The (windSpeedKmh, numBoxes) scatter pairs drawn from `df_corr`
(dash.py lines 160-161). -/
def severityPairs (rs : List Record) : List (ℚ × ℚ) :=
  (df_corr rs).filterMap (fun r =>
    match r.windSpeedKmh, r.numBoxes with
    | some w, some n => some (w, n)
    | _, _ => none)

/-- The compass labels present in the rows (`WindDir_compass` column with
NaN dropped, as pandas `groupby` drops NaN keys). -/
def dirLabels (rs : List Record) : List String :=
  rs.filterMap (fun r => r.windDirCompass)

/-- dash.py line 165:
`df.groupby("WindDir_compass").size().reset_index(name="Count")`.
One row per distinct non-NaN label with its count, keys sorted. -/
def df_dir (rs : List Record) : List (String × ℕ) :=
  (((dirLabels rs).dedup).insertionSort (· ≤ ·)).map
    (fun s => (s, (dirLabels rs).count s))

/-- Rows whose timestamp failed to parse (NaT after `errors="coerce"`). -/
def malformedCount (rs : List Record) : ℕ :=
  (rs.filter (fun r => r.dateTime.isNone)).length

/-- Rows whose timestamp parsed. -/
def validCount (rs : List Record) : ℕ :=
  (rs.filter (fun r => r.dateTime.isSome)).length

/-- Result of one pipeline pass: either the distinguished "no data" state
(dash.py lines 27-29: missing log file, `st.warning` + `st.stop`), or the
derived tables handed to the presentation layer. -/
inductive PipelineResult where
  | noData : PipelineResult
  | ok : List (ℤ × ℕ) → List Hotspot → List WindArrow → List (ℚ × ℚ) →
      List (String × ℕ) → PipelineResult

/-- One full pass of dash.py: a missing file (`input = none`) stops with
the "no data" state before any processing; otherwise the rows are parsed,
window-filtered, located, and aggregated into the four derived tables. -/
noncomputable def runPipeline (input : Option (List Record)) (now win : ℤ) :
    PipelineResult :=
  match input with
  | none => PipelineResult.noData
  | some rows =>
    let flt := windowFilter now win rows
    let located := withDefaultCoords flt
    PipelineResult.ok (df_count flt) (df_map located)
      (windArrows (df_map located)) (severityPairs flt) (df_dir flt)

/-!
Spec-side definitions, for comparison with the source-derived ones above.
-/

/-- Two-argument arctangent (the `atan2` convention the spec's circular
mean refers to). -/
noncomputable def atan2 (y x : ℝ) : ℝ :=
  if 0 < x then Real.arctan (y / x)
  else if x < 0 ∧ 0 ≤ y then Real.arctan (y / x) + Real.pi
  else if x < 0 then Real.arctan (y / x) - Real.pi
  else if 0 < y then Real.pi / 2
  else if y < 0 then -(Real.pi / 2)
  else 0

/-- Normalization of a degree value in (-180, 180] to [0, 360). -/
noncomputable def normalizeDeg (d : ℝ) : ℝ :=
  if d < 0 then d + 360 else d

/-- The spec's circular mean of a list of bearings (degrees): mean of the
unit vectors (cos, sin), bearing recovered via the two-argument
arctangent, normalized to [0, 360).  This follows the spec's words; the
source instead takes the pandas arithmetic mean (`df_map`). -/
noncomputable def specCircularMeanDeg (ds : List ℝ) : ℝ :=
  let mx := (ds.map (fun d => Real.cos (degToRad d))).sum / ds.length
  let my := (ds.map (fun d => Real.sin (degToRad d))).sum / ds.length
  normalizeDeg (atan2 my mx * 180 / Real.pi)

/-- The spec's first-seen key order (claim C4): distinct keys in order of
first appearance. -/
def firstSeenKeys (l : List ℤ) : List ℤ :=
  l.foldl (fun acc a => if a ∈ acc then acc else acc ++ [a]) []

/-- The temporal aggregation as the spec describes it: (hour, count) pairs
ordered by first appearance of each hour. -/
def specFirstSeenAgg (rs : List Record) : List (ℤ × ℕ) :=
  (firstSeenKeys (hoursOf rs)).map (fun h => (h, (hoursOf rs).count h))

/-!
Concrete records used as test inputs and witnesses.
-/

/-- A record bearing 350 degrees. -/
def rec350 : Record :=
  { dateTime := some 0, filename := "a.jpg", numBoxes := none,
    windSpeedKmh := none, windDirDeg := some 350, windDirCompass := none }

/-- A record bearing 10 degrees. -/
def rec10 : Record :=
  { dateTime := some 0, filename := "b.jpg", numBoxes := none,
    windSpeedKmh := none, windDirDeg := some 10, windDirCompass := none }

/-- A record with no wind bearing at all. -/
def recNoDir : Record :=
  { dateTime := some 0, filename := "c.jpg", numBoxes := none,
    windSpeedKmh := none, windDirDeg := none, windDirCompass := none }

/-- A record whose timestamp lies in the future of the reference instant 0. -/
def recFuture : Record :=
  { dateTime := some 1, filename := "f.jpg", numBoxes := none,
    windSpeedKmh := none, windDirDeg := none, windDirCompass := none }

/-- A fully populated record (box count 2, wind speed 3, bearing 90, label NE). -/
def recBoth : Record :=
  { dateTime := some 5, filename := "g.jpg", numBoxes := some 2,
    windSpeedKmh := some 3, windDirDeg := some 90, windDirCompass := some ("NE") }

/-- A record whose timestamp falls in hour-of-day 5. -/
def recHour5 : Record :=
  { dateTime := some 18000, filename := "h5.jpg", numBoxes := none,
    windSpeedKmh := none, windDirDeg := none, windDirCompass := none }

/-- A record whose timestamp falls in hour-of-day 3. -/
def recHour3 : Record :=
  { dateTime := some 10800, filename := "h3.jpg", numBoxes := none,
    windSpeedKmh := none, windDirDeg := none, windDirCompass := none }

/-- The single hotspot built from `rec350` and `rec10` at the default site. -/
def hotspotNorth : Hotspot :=
  { lat := 30.767, lon := 76.575, emissionCount := 1, windDirDeg := some 0 }

/-!
Helper lemmas.
-/

/-- `dedup` of a list all of whose elements equal `k` is `[]` or `[k]`. -/
theorem dedup_of_constant {α : Type} [DecidableEq α] {k : α} :
    ∀ {l : List α}, (∀ x ∈ l, x = k) → l.dedup = [] ∨ l.dedup = [k] := by
  intro l
  induction l with
  | nil => exact fun _ => Or.inl rfl
  | cons a l ih =>
    intro hc
    have ha : a = k := hc a (List.mem_cons_self a l)
    have hl : ∀ x ∈ l, x = k := fun x hx => hc x (List.mem_cons_of_mem a hx)
    rcases ih hl with h | h
    · right
      have : a ∉ l := by
        intro hmem
        have : a ∈ l.dedup := List.mem_dedup.mpr hmem
        rw [h] at this
        exact absurd this (List.not_mem_nil a)
      rw [List.dedup_cons_of_not_mem this, h, ha]
    · right
      have : a ∈ l := by
        have : a ∈ l.dedup := by rw [h, ha]; exact List.mem_singleton.mpr rfl
        exact List.mem_dedup.mp this
      rw [List.dedup_cons_of_mem this, h]

/-- `filterMap` keeps as many elements as the filter by `isSome` does. -/
theorem length_filterMap_eq_length_filter {α β : Type} (f : α → Option β)
    (l : List α) :
    (l.filterMap f).length = (l.filter (fun a => (f a).isSome)).length := by
  induction l with
  | nil => rfl
  | cons a l ih =>
    rw [List.filterMap_cons, List.filter_cons]
    cases h : f a <;> simp [h, ih]

/-- Evaluation of the spatial aggregation on one bearing-less record. -/
theorem df_map_one_noDir :
    df_map (withDefaultCoords [recNoDir]) =
      [{ lat := defaultLat, lon := defaultLon, emissionCount := 1,
         windDirDeg := none }] := by
  simp [df_map, withDefaultCoords, recNoDir, locKey, pandasMean,
    List.insertionSort, List.orderedInsert]

/-- Evaluation of the spatial aggregation on one fully populated record. -/
theorem df_map_one_both :
    df_map (withDefaultCoords [recBoth]) =
      [{ lat := defaultLat, lon := defaultLon, emissionCount := 1,
         windDirDeg := some 90 }] := by
  simp [df_map, withDefaultCoords, recBoth, locKey, pandasMean,
    List.insertionSort, List.orderedInsert]

/-- Evaluation of the spatial aggregation on the bearings 350 and 10: the
pandas arithmetic mean yields 180. -/
theorem df_map_350_10 :
    df_map (withDefaultCoords [rec350, rec10]) =
      [{ lat := defaultLat, lon := defaultLon, emissionCount := 2,
         windDirDeg := some 180 }] := by
  simp [df_map, withDefaultCoords, rec350, rec10, locKey, pandasMean,
    List.insertionSort, List.orderedInsert]
  norm_num

/-!
Claim theorems.
-/

/-- C2 (counterexample): the filter of dash.py line 33 enforces no upper
bound, so a record dated strictly after the reference instant `now = 0` is
retained even though its timestamp 1 does not satisfy `t <= now`. -/
theorem c2_counterexample :
    recFuture ∈ windowFilter 0 defaultWindow [recFuture] ∧
    recFuture.dateTime = some 1 ∧ ¬ ((1 : ℤ) ≤ 0) := by
  decide

/-- C2 (amended): the time-window filter returns a subset (sublist) of its
input; every retained record has a valid (parsed) timestamp `t` with
`now - win <= t` (no upper bound is enforced); and every input record
passing the window predicate is retained. -/
theorem c2_window_filter_amended (now win : ℤ) (rs : List Record) :
    (windowFilter now win rs).Sublist rs ∧
    (∀ r ∈ windowFilter now win rs, ∃ t, r.dateTime = some t ∧ now - win ≤ t) ∧
    (∀ r ∈ rs, inWindow now win r = true → r ∈ windowFilter now win rs) := by
  refine ⟨List.filter_sublist rs, ?_, ?_⟩
  · intro r hr
    have h := List.of_mem_filter hr
    unfold inWindow at h
    cases ht : r.dateTime with
    | none => rw [ht] at h; exact absurd h (by simp)
    | some t =>
      rw [ht] at h
      exact ⟨t, rfl, by simpa using h⟩
  · intro r hr h
    exact List.mem_filter.mpr ⟨hr, h⟩

/-- C2 witness: the amended theorem applied to the singleton input. -/
theorem c2_window_filter_amended_witness :
    ∃ t, recFuture.dateTime = some t ∧ (0 : ℤ) - defaultWindow ≤ t :=
  (c2_window_filter_amended 0 defaultWindow [recFuture]).2.1 recFuture (by decide)

/-- C5: rows whose timestamp fails to parse plus rows whose timestamp
parses partition the rows read from the source.  (The script itself never
surfaces `malformedCount`: `errors="coerce"` silently turns parse failures
into NaT and line 33 silently drops them.) -/
theorem c5_malformed_plus_valid (rs : List Record) :
    malformedCount rs + validCount rs = rs.length := by
  induction rs with
  | nil => rfl
  | cons r rs ih =>
    unfold malformedCount validCount at ih ⊢
    rw [List.filter_cons, List.filter_cons]
    cases h : r.dateTime <;> simp [h] <;> omega

/-- C7: the pipeline yields the distinguished "no data" result exactly
when the input file is missing; any present file produces the `ok` tables
(dash.py lines 27-29). -/
theorem c7_missing_source (input : Option (List Record)) (now win : ℤ) :
    runPipeline input now win = PipelineResult.noData ↔ input = none := by
  cases input <;> simp [runPipeline]

/-- C7 witness: the missing-file case at concrete arguments. -/
theorem c7_missing_source_witness :
    runPipeline none 0 defaultWindow = PipelineResult.noData :=
  (c7_missing_source none 0 defaultWindow).mpr rfl

/-- C8: the severity-vs-wind pairs are exactly the (windSpeedKmh,
numBoxes) pairs of the records in which both fields are present, and every
output pair is drawn verbatim from such a record (dash.py line 158). -/
theorem c8_severity_pairs (rs : List Record) :
    severityPairs rs = rs.filterMap (fun r =>
      match r.windSpeedKmh, r.numBoxes with
      | some w, some n => some (w, n)
      | _, _ => none) ∧
    ∀ p ∈ severityPairs rs, ∃ r ∈ rs,
      r.windSpeedKmh = some p.1 ∧ r.numBoxes = some p.2 := by
  have h1 : ∀ l : List Record, severityPairs l = l.filterMap (fun r =>
      match r.windSpeedKmh, r.numBoxes with
      | some w, some n => some (w, n)
      | _, _ => none) := by
    intro l
    induction l with
    | nil => rfl
    | cons r l ih =>
      unfold severityPairs df_corr at ih ⊢
      rw [List.filter_cons, List.filterMap_cons]
      cases hn : r.numBoxes <;> cases hw : r.windSpeedKmh <;>
        simp [hn, hw, List.filterMap_cons, ih]
  refine ⟨h1 rs, ?_⟩
  intro p hp
  rw [h1 rs, List.mem_filterMap] at hp
  obtain ⟨r, hr, hf⟩ := hp
  cases hw : r.windSpeedKmh with
  | none => rw [hw] at hf; exact absurd hf (by simp)
  | some w =>
    cases hn : r.numBoxes with
    | none => rw [hw, hn] at hf; exact absurd hf (by simp)
    | some n =>
      rw [hw, hn] at hf
      have : (w, n) = p := by simpa using hf
      exact ⟨r, hr, by rw [hw, ← this], by rw [hn, ← this]⟩

/-- C8 witness: the characterization applied to a one-record input. -/
theorem c8_severity_pairs_witness :
    ∃ r ∈ [recBoth], r.windSpeedKmh = some (3 : ℚ) ∧ r.numBoxes = some (2 : ℚ) :=
  (c8_severity_pairs [recBoth]).2 (3, 2) (by decide)

/-- C3 (counterexample): a group with no wind bearing gets an undefined
(NaN) mean, yet the arrow loop of dash.py lines 107-137 still produces an
arrow for it — the vector is not skipped, its fields merely carry NaN. -/
theorem c3_counterexample :
    (df_map (withDefaultCoords [recNoDir])).map Hotspot.windDirDeg = [none] ∧
    (windArrows (df_map (withDefaultCoords [recNoDir]))).length = 1 ∧
    (windArrows (df_map (withDefaultCoords [recNoDir]))).length ≠ 0 := by
  refine ⟨?_, ?_, ?_⟩ <;> simp [df_map_one_noDir, windArrows]

/-- C3 (amended): for a hotspot whose mean bearing is undefined the loop
still emits an arrow, but its endpoint coordinates and arrowhead angle are
all undefined (NaN); the hotspot's detection count is unaffected: it is
the number of records at that location, bearings or not. -/
theorem c3_nan_arrow_amended (rs : List LocatedRecord) (h : Hotspot)
    (hmem : h ∈ df_map rs) (hnone : h.windDirDeg = none) :
    arrowOf h ∈ windArrows (df_map rs) ∧
    (arrowOf h).endLat = none ∧ (arrowOf h).endLon = none ∧
    (arrowOf h).angle = none ∧
    h.emissionCount =
      (rs.filter (fun r => decide (locKey r = (h.lat, h.lon)))).length := by
  refine ⟨List.mem_map_of_mem arrowOf hmem, by simp [arrowOf, hnone],
    by simp [arrowOf, hnone], by simp [arrowOf, hnone], ?_⟩
  simp only [df_map, List.mem_map] at hmem
  obtain ⟨k, hk, rfl⟩ := hmem
  simp

/-- C3 witness: the amended theorem applied to a single bearing-less
record at the default site. -/
theorem c3_nan_arrow_amended_witness :
    arrowOf ⟨defaultLat, defaultLon, 1, none⟩ ∈
      windArrows (df_map (withDefaultCoords [recNoDir])) ∧
    (arrowOf ⟨defaultLat, defaultLon, 1, none⟩).endLat = none ∧
    (arrowOf ⟨defaultLat, defaultLon, 1, none⟩).endLon = none ∧
    (arrowOf ⟨defaultLat, defaultLon, 1, none⟩).angle = none ∧
    Hotspot.emissionCount ⟨defaultLat, defaultLon, 1, none⟩ =
      ((withDefaultCoords [recNoDir]).filter (fun r =>
        decide (locKey r = (Hotspot.lat ⟨defaultLat, defaultLon, 1, none⟩,
          Hotspot.lon ⟨defaultLat, defaultLon, 1, none⟩)))).length :=
  c3_nan_arrow_amended (withDefaultCoords [recNoDir])
    ⟨defaultLat, defaultLon, 1, none⟩
    (by rw [df_map_one_noDir]; exact List.mem_singleton.mpr rfl) rfl

/-- C4 (counterexample): for records seen in hour order 5 then 3, the
aggregator of dash.py line 64 returns the hours sorted ascending (pandas
groupby sorts its keys), not in first-seen order as the claim states. -/
theorem c4_counterexample :
    df_count [recHour5, recHour3] = [(3, 1), (5, 1)] ∧
    specFirstSeenAgg [recHour5, recHour3] = [(5, 1), (3, 1)] ∧
    df_count [recHour5, recHour3] ≠ specFirstSeenAgg [recHour5, recHour3] := by
  decide

/-- C4 (amended): the (hour, count) pairs are ordered ascending by hour
value; every pair has a positive count equal to the number of records in
that hour (so hours with zero detections are omitted), and every hour
occurring in the data appears. -/
theorem c4_count_sorted_amended (rs : List Record) :
    ((df_count rs).map Prod.fst).Sorted (· ≤ ·) ∧
    (∀ p ∈ df_count rs, 0 < p.2 ∧ p.2 = (hoursOf rs).count p.1) ∧
    (∀ h ∈ hoursOf rs, h ∈ (df_count rs).map Prod.fst) := by
  have hcomp : (Prod.fst ∘ fun h : ℤ => (h, (hoursOf rs).count h)) = id := rfl
  have hkeys : (df_count rs).map Prod.fst =
      ((hoursOf rs).dedup).insertionSort (· ≤ ·) := by
    simp [df_count, List.map_map, hcomp]
  refine ⟨?_, ?_, ?_⟩
  · rw [hkeys]
    exact List.sorted_insertionSort _ _
  · intro p hp
    simp only [df_count, List.mem_map] at hp
    obtain ⟨h, hh, rfl⟩ := hp
    have hmem : h ∈ hoursOf rs :=
      List.mem_dedup.mp ((List.mem_insertionSort _).mp hh)
    exact ⟨List.count_pos_iff.mpr hmem, rfl⟩
  · intro h hh
    rw [hkeys]
    exact (List.mem_insertionSort _).mpr (List.mem_dedup.mpr hh)

/-- C4 witness: the amended theorem applied to the two-record input. -/
theorem c4_count_sorted_amended_witness :
    0 < (((3 : ℤ), (1 : ℕ))).2 ∧
    (((3 : ℤ), (1 : ℕ))).2 = (hoursOf [recHour5, recHour3]).count (((3 : ℤ), (1 : ℕ))).1 :=
  (c4_count_sorted_amended [recHour5, recHour3]).2.1 (3, 1) (by decide)

/-- C9: because dash.py lines 34-35 overwrite every row's coordinates with
the constants `DEFAULT_LAT`, `DEFAULT_LON` before grouping, the spatial
aggregation yields at most one hotspot, and that hotspot sits at the
default coordinates. -/
theorem c9_single_group (rs : List Record) :
    (df_map (withDefaultCoords rs)).length ≤ 1 ∧
    ∀ h ∈ df_map (withDefaultCoords rs),
      h.lat = defaultLat ∧ h.lon = defaultLon := by
  have hconst : ∀ x ∈ (withDefaultCoords rs).map locKey,
      x = (defaultLat, defaultLon) := by
    intro x hx
    simp only [withDefaultCoords, List.map_map, List.mem_map] at hx
    obtain ⟨r, _, rfl⟩ := hx
    rfl
  rcases dedup_of_constant hconst with h | h <;>
    simp [df_map, h, List.insertionSort]

/-- C9 witness: the single-group theorem applied to a one-record input. -/
theorem c9_single_group_witness :
    Hotspot.lat ⟨defaultLat, defaultLon, 1, some 90⟩ = defaultLat ∧
    Hotspot.lon ⟨defaultLat, defaultLon, 1, some 90⟩ = defaultLon :=
  (c9_single_group [recBoth]).2 ⟨defaultLat, defaultLon, 1, some 90⟩
    (by rw [df_map_one_both]; exact List.mem_singleton.mpr rfl)

/-- C10: the direction histogram of dash.py line 165 groups only the
records whose compass label is present (pandas groupby drops NaN keys):
the counts sum to the number of records with a present label, and every
histogram row's label and count come from records carrying that label. -/
theorem c10_direction_histogram (rs : List Record) :
    ((df_dir rs).map Prod.snd).sum =
      (rs.filter (fun r => r.windDirCompass.isSome)).length ∧
    ∀ p ∈ df_dir rs, (∃ r ∈ rs, r.windDirCompass = some p.1) ∧
      p.2 = (dirLabels rs).count p.1 := by
  refine ⟨?_, ?_⟩
  · have hperm : List.Perm
        ((((dirLabels rs).dedup).insertionSort (· ≤ ·)).map
          (fun s => (dirLabels rs).count s))
        (((dirLabels rs).dedup).map (fun s => (dirLabels rs).count s)) :=
      (List.perm_insertionSort _ _).map _
    have hcomp : (Prod.snd ∘ fun s : String => (s, (dirLabels rs).count s)) =
        (fun s => (dirLabels rs).count s) := rfl
    have h1 : (df_dir rs).map Prod.snd =
        (((dirLabels rs).dedup).insertionSort (· ≤ ·)).map
          (fun s => (dirLabels rs).count s) := by
      simp [df_dir, List.map_map, hcomp]
    rw [h1, hperm.sum_eq, List.sum_map_count_dedup_eq_length]
    exact length_filterMap_eq_length_filter _ rs
  · intro p hp
    simp only [df_dir, List.mem_map] at hp
    obtain ⟨s, hs, rfl⟩ := hp
    have hmem : s ∈ dirLabels rs :=
      List.mem_dedup.mp ((List.mem_insertionSort _).mp hs)
    obtain ⟨r, hr, hfr⟩ := List.mem_filterMap.mp hmem
    exact ⟨⟨r, hr, hfr⟩, rfl⟩

/-- The spec's circular mean of the bearings 350 and 10 is 0. -/
theorem spec_circular_mean_350_10 : specCircularMeanDeg [350, 10] = 0 := by
  have hpi := Real.pi_pos
  have h350 : degToRad 350 = 2 * Real.pi - degToRad 10 := by
    unfold degToRad; ring
  have hc : Real.cos (degToRad 350) = Real.cos (degToRad 10) := by
    rw [h350, Real.cos_sub, Real.cos_two_pi, Real.sin_two_pi]; ring
  have hs : Real.sin (degToRad 350) = -Real.sin (degToRad 10) := by
    rw [h350, Real.sin_sub, Real.cos_two_pi, Real.sin_two_pi]; ring
  have hcpos : 0 < Real.cos (degToRad 10) := by
    apply Real.cos_pos_of_mem_Ioo
    constructor
    · unfold degToRad; nlinarith
    · unfold degToRad; nlinarith
  have hat : atan2 0 (Real.cos (degToRad 10)) = 0 := by
    unfold atan2
    rw [if_pos hcpos]
    simp [Real.arctan_zero]
  simp only [specCircularMeanDeg, List.map_cons, List.map_nil, List.sum_cons,
    List.sum_nil, List.length_cons, List.length_nil, hc, hs]
  norm_num
  rw [hat]
  simp [normalizeDeg]

/-- C1: dash.py line 83 takes the pandas arithmetic mean of the group's
bearings, so the group {350, 10} aggregates to bearing 180; the spec's
circular mean of the same bearings is 0.  The code therefore does not
compute the circular mean the spec mandates. -/
theorem c1_pandas_mean_not_circular :
    (df_map (withDefaultCoords [rec350, rec10])).map Hotspot.windDirDeg =
      [some 180] ∧
    specCircularMeanDeg [350, 10] = 0 ∧
    (180 : ℝ) ≠ 0 := by
  refine ⟨?_, spec_circular_mean_350_10, by norm_num⟩
  rw [df_map_350_10]
  rfl

/-- C6: the wind-vector projector of dash.py lines 110-114 and 134: for a
hotspot with a defined bearing `d` it returns the endpoint
`lat + 0.001 * cos(deg2rad d)`, `lon + 0.001 * sin(deg2rad d)` and passes
the bearing through unchanged as the arrowhead angle; at bearing 0 from
the default site (30.767, 76.575) the endpoint is (30.768, 76.575). -/
theorem c6_wind_vector (h : Hotspot) (d : ℚ) (hd : h.windDirDeg = some d) :
    ((arrowOf h).endLat =
        some ((h.lat : ℝ) + arrowScale * Real.cos (degToRad (d : ℝ))) ∧
     (arrowOf h).endLon =
        some ((h.lon : ℝ) + arrowScale * Real.sin (degToRad (d : ℝ))) ∧
     (arrowOf h).angle = some d) ∧
    ((arrowOf hotspotNorth).endLat = some 30.768 ∧
     (arrowOf hotspotNorth).endLon = some 76.575 ∧
     (arrowOf hotspotNorth).angle = some 0) := by
  constructor
  · exact ⟨by simp [arrowOf, hd], by simp [arrowOf, hd], by simp [arrowOf, hd]⟩
  · refine ⟨?_, ?_, rfl⟩
    · simp only [arrowOf, hotspotNorth, Option.map_some]
      norm_num [degToRad, arrowScale]
    · simp only [arrowOf, hotspotNorth, Option.map_some]
      norm_num [degToRad, arrowScale]

/-- C6 witness: the projector applied to the north-bearing hotspot. -/
theorem c6_wind_vector_witness :
    (arrowOf hotspotNorth).endLat = some 30.768 ∧
    (arrowOf hotspotNorth).angle = some 0 :=
  ⟨(c6_wind_vector hotspotNorth 0 rfl).2.1,
   (c6_wind_vector hotspotNorth 0 rfl).2.2.2⟩

/-- C10 witness: the histogram characterization applied to a one-record
input with label NE. -/
theorem c10_direction_histogram_witness :
    (∃ r ∈ [recBoth], r.windDirCompass = some ((("NE" : String), (1 : ℕ))).1) ∧
    ((("NE" : String), (1 : ℕ))).2 = (dirLabels [recBoth]).count ((("NE" : String), (1 : ℕ))).1 :=
  (c10_direction_histogram [recBoth]).2 (("NE"), 1) (by decide)

end Dash
